import Mathlib

/-!
Shallow embedding of the `pgrepo` package (repository fredbi/pgxutils):
database provisioning (CreateDB / DropDB / EnsureDB), layered settings
resolution, the retrying availability probe (waitPing) and the Repository
pool lifecycle (Start / Stop / HealthCheck).

Durations are modelled as `Int` nanoseconds, mirroring Go's
`time.Duration`. Maps are association lists. Effectful steps (network
connects, SQL execution, pings) are abstracted as explicit outcome
parameters fed to the control flow, which itself is translated
faithfully from the Go source.
-/

namespace Pgrepo

/-- Durations in nanoseconds, as Go's time.Duration. -/
abbrev Duration := Int

/-- Go's time.Second in nanoseconds. -/
def second : Duration := 1000000000

/-- Go errors: a base error value, errors.Join of two errors, or
fmt.Errorf wrapping with %w. -/
inductive GoError where
  | base (msg : String)
  | jn (a b : GoError)
  | wrap (msg : String) (e : GoError)
deriving DecidableEq, Repr

/-- Message of an error: errors.Join concatenates messages with a
newline; fmt.Errorf with %w embeds the wrapped message. -/
def errMsg : GoError → String
  | .base m => m
  | .jn a b => errMsg a ++ "\n" ++ errMsg b
  | .wrap m e => m ++ errMsg e

/-- Model of errors.Is: target found in the wrap/join tree. -/
def errorIs (e target : GoError) : Bool :=
  (e = target) ||
    match e with
    | .base _ => false
    | .jn a b => errorIs a target || errorIs b target
    | .wrap _ inner => errorIs inner target

/-- Sentinel ErrPGAuth of the package. -/
def ErrPGAuth : GoError := .base "postgres authentication error"

/-- Sentinel ErrDBNotInitialized of the package. -/
def ErrDBNotInitialized : GoError := .base "db not initialized"

/-- Sentinel ErrInvalidPGURL of the package. -/
def ErrInvalidPGURL : GoError := .base "DB URL is invalid"

/-- Model of strings whose characters we scan: does `l` start with `pat`? -/
def startsWithList (pat l : List Char) : Bool :=
  match pat, l with
  | [], _ => true
  | _ :: _, [] => false
  | p :: ps, c :: cs => p = c && startsWithList ps cs

/-- Does `l` contain `pat` as a contiguous sublist? -/
def containsList (pat l : List Char) : Bool :=
  match l with
  | [] => startsWithList pat []
  | _ :: cs => startsWithList pat l || containsList pat cs

/-- Model of Go's strings.Contains s pat. -/
def strContains (s pat : String) : Bool :=
  containsList pat.toList s.toList

/-! ## Settings data model (part_003: settings, poolSettings, databaseSettings) -/

/-- Log settings of the pool configuration. -/
structure logSettings where
  Level : String
deriving DecidableEq, Repr

/-- Trace settings of the pool configuration. -/
structure traceSettings where
  Enabled : Bool
deriving DecidableEq, Repr

/-- Pool settings (poolSettings in the Go source). -/
structure poolSettings where
  MaxIdleConns : Int
  MaxOpenConns : Int
  ConnMaxLifeTime : Duration
  ConnMaxIdleTime : Duration
  PingTimeout : Duration
  Log : logSettings
  Trace : traceSettings
  Set : List (String × String)
deriving DecidableEq, Repr

/-- Per-database settings (databaseSettings in the Go source). The Go
field PGConfig is a nullable pointer, modelled as Option. -/
structure databaseSettings where
  URL : String
  User : String
  Password : String
  PGConfig : Option poolSettings
deriving DecidableEq, Repr

/-- Top-level settings (settings in the Go source): global pool
configuration, alias map, app name. The logger is irrelevant to the
claims and omitted. -/
structure settings where
  PGConfig : Option poolSettings
  Databases : List (String × databaseSettings)
  app : String
deriving DecidableEq, Repr

/-- DefaultDBAlias constant. -/
def DefaultDBAlias : String := "default"

/-- DefaultURL constant. -/
def DefaultURL : String := "postgresql://postgres@localhost:5432/testdb?sslmode=disable"

/-- DefaultLogLevel constant. -/
def DefaultLogLevel : String := "warn"

/-- Initial value of the package-level defaultSettings variable
(part_003 lines 43-69). -/
def initialDefaultPool : poolSettings :=
  { MaxIdleConns := 2
    MaxOpenConns := 0
    ConnMaxLifeTime := 0
    ConnMaxIdleTime := 0
    PingTimeout := 10 * second
    Log := { Level := DefaultLogLevel }
    Trace := { Enabled := false }
    Set := [] }

/-- Initial package defaults: one alias "default" pointing at DefaultURL. -/
def initialDefaultSettings : settings :=
  { PGConfig := some initialDefaultPool
    Databases := [(DefaultDBAlias, { URL := DefaultURL, User := "", Password := "", PGConfig := none })]
    app := "" }

/-- Ping timeout of the initial package defaults (10 seconds). -/
def initialDefaultPingTimeout : Duration := 10 * second

/-! ## Settings resolution (part_003: DBSettingsFor, maxWait) -/

/-- DBSettingsFor (part_003 lines 177-195): look the alias up; when
absent fall back to the "default" alias entry, returned as-is; when
that is also absent return empty settings; when the alias is present
and its PGConfig is nil, inherit the global pool settings. -/
def DBSettingsFor (s : settings) (db : String) : databaseSettings :=
  match s.Databases.lookup db with
  | none =>
    match s.Databases.lookup DefaultDBAlias with
    | some defaultDBSettings => defaultDBSettings
    | none => { URL := "", User := "", Password := "", PGConfig := none }
  | some dbConfig =>
    if dbConfig.PGConfig = none then
      { dbConfig with PGConfig := s.PGConfig }
    else
      dbConfig

/-- maxWait (part_003 lines 393-399): a nil pool config or a ping
timeout below one second yields the package-level default ping timeout
(passed here explicitly as dfltPing, the value of
defaultSettings.PGConfig.PingTimeout at call time). -/
def maxWait (dfltPing : Duration) (r : databaseSettings) : Duration :=
  match r.PGConfig with
  | none => dfltPing
  | some cfg => if cfg.PingTimeout < second then dfltPing else cfg.PingTimeout

/-- Flooring applied by waitPing on entry (part_002 lines 370-372):
a wait below one second becomes exactly one second. -/
def pingDeadline (maxWaitArg : Duration) : Duration :=
  if maxWaitArg < second then second else maxWaitArg

/-- Effective retry-loop pacing for the availability probe of a
database settings value: waitPing receives s.maxWait() (part_002 line
343, part_001 line 176 via open) and floors it. -/
def effectivePacing (dfltPing : Duration) (r : databaseSettings) : Duration :=
  pingDeadline (maxWait dfltPing r)

/-! ## URL model (net/url as used by the package) -/

/-- Structured view of a parsed connection URL, the components of
net/url.URL that the package reads or writes. -/
structure GoURL where
  scheme : String
  userinfo : String
  host : String
  path : String
  rawQuery : String
deriving DecidableEq, Repr

/-- Splits `l` at the first occurrence of the separator sequence `sep`,
dropping the separator. -/
def splitOnFirstSeq (sep : List Char) : List Char → Option (List Char × List Char)
  | [] => if sep = [] then some ([], []) else none
  | c :: cs =>
    if startsWithList sep (c :: cs) then some ([], (c :: cs).drop sep.length)
    else (splitOnFirstSeq sep cs).map (fun p => (c :: p.1, p.2))

/-- Splits `l` at the first occurrence of the character `sep`. -/
def splitFirstChar (sep : Char) : List Char → Option (List Char × List Char)
  | [] => none
  | c :: cs =>
    if c = sep then some ([], cs)
    else (splitFirstChar sep cs).map (fun p => (c :: p.1, p.2))

/-- Splits `l` at the last occurrence of the character `sep`
(net/url splits userinfo from host at the last "@"). -/
def splitLastChar (sep : Char) : List Char → Option (List Char × List Char)
  | [] => none
  | c :: cs =>
    match splitLastChar sep cs with
    | some (a, b) => some (c :: a, b)
    | none => if c = sep then some ([], cs) else none

/-- Model of url.Parse restricted to the DSN grammar the package uses:
scheme://[userinfo@]host[/path][?query]. Anything without "://" is
rejected; the userinfo, if any, ends at the last "@" before the path,
as in net/url. The parsed Path keeps its leading slash, as in net/url. -/
def parseURL (s : String) : Option GoURL :=
  match splitOnFirstSeq "://".toList s.toList with
  | none => none
  | some (sch, rest) =>
    let qsplit := splitFirstChar '?' rest
    let beforeQ := match qsplit with | none => rest | some p => p.1
    let query := match qsplit with | none => [] | some p => p.2
    let asplit := splitLastChar '@' beforeQ
    let user := match asplit with | none => [] | some p => p.1
    let hostpath := match asplit with | none => beforeQ | some p => p.2
    let psplit := splitFirstChar '/' hostpath
    let host := match psplit with | none => hostpath | some p => p.1
    let path := match psplit with | none => [] | some p => '/' :: p.2
    some { scheme := sch.asString
           userinfo := user.asString
           host := host.asString
           path := path.asString
           rawQuery := query.asString }

/-- Model of strings.TrimPrefix(path, "/"): removes one leading slash
when present. -/
def stripSlash (s : String) : String :=
  match s.toList with
  | '/' :: rest => rest.asString
  | _ => s

/-- URL rewriting performed by connectNoDB (part_001 lines 356-362):
parse the DSN — an invalid DSN is an error — and point the path element
at the bootstrap database "postgres". -/
def connectNoDBURL (dsn : String) : Option GoURL :=
  (parseURL dsn).map (fun u => { u with path := "postgres" })

/-- Target database name derivation used by CreateDB for the default
alias (part_001 lines 260-267): parse the URL and trim the leading
slash off the path. -/
def deriveDBName (dsn : String) : Option String :=
  (parseURL dsn).map (fun u => stripSlash u.path)

/-! ## Availability probe (part_002: waitPing, errShouldReturn) -/

/-- Outcome of one PingContext call. -/
inductive PingOutcome where
  | success
  | failure (e : GoError)
deriving DecidableEq, Repr

/-- Result of waitPing as observed by its caller; panicNilDeref marks
the Go runtime fault of calling Error() on a nil error interface. -/
inductive WaitResult where
  | ok
  | fail (e : GoError)
  | panicNilDeref
deriving DecidableEq, Repr

/-- errShouldReturn (part_002 lines 418-427): an error whose message
mentions SQLSTATE class 28 is fatal and joined with the ErrPGAuth
sentinel; class 3D is fatal and returned as-is; anything else is
transient. -/
def errShouldReturn (e : GoError) : Bool × GoError :=
  if strContains (errMsg e) "SQLSTATE 28" then (true, .jn ErrPGAuth e)
  else if strContains (errMsg e) "SQLSTATE 3D" then (true, e)
  else (false, e)

/-- Retry loop of waitPing (part_002 lines 387-415). The probe results
are an abstract stream indexed by probe number; `fuel` is the number of
ticker firings that occur before the deadline timer fires (the select
between ticker and timer is scheduling nondeterminism, abstracted by
this parameter). At fuel 0 the timer branch runs the last attempt:
on failure its classified error is returned; on success Go calls
errShouldReturn with a nil error, which dereferences nil. -/
def waitPingLoop (probes : Nat → PingOutcome) (idx : Nat) : Nat → WaitResult
  | 0 =>
    match probes idx with
    | .success => .panicNilDeref
    | .failure e => .fail (errShouldReturn e).2
  | fuel + 1 =>
    match probes idx with
    | .success => .ok
    | .failure e =>
      let r := errShouldReturn e
      if r.1 then .fail r.2 else waitPingLoop probes (idx + 1) fuel

/-- waitPing (part_002 lines 369-416): immediate probe first; a success
returns at once, a fatal error returns its classified form at once,
otherwise the retry loop runs with `ticks` ticker firings before the
deadline fires. -/
def waitPing (probes : Nat → PingOutcome) (ticks : Nat) : WaitResult :=
  match probes 0 with
  | .success => .ok
  | .failure e =>
    let r := errShouldReturn e
    if r.1 then .fail r.2
    else waitPingLoop probes 1 ticks

/-! ## Provisioning (part_001: CreateDB, DropDB, EnsureDB) -/

/-- Decidable equality for Except values, used by the outcome records. -/
instance {ε α : Type} [DecidableEq ε] [DecidableEq α] : DecidableEq (Except ε α) := fun x y =>
  match x, y with
  | .ok a, .ok b =>
    if h : a = b then .isTrue (by rw [h]) else .isFalse (by intro hh; cases hh; exact h rfl)
  | .error a, .error b =>
    if h : a = b then .isTrue (by rw [h]) else .isFalse (by intro hh; cases hh; exact h rfl)
  | .ok _, .error _ => .isFalse (by intro hh; cases hh)
  | .error _, .ok _ => .isFalse (by intro hh; cases hh)

/-- Outcomes of the effectful steps of one provisioning call, abstracted
as inputs: the administrative connect (connectNoDB), BeginTxx, the
dbExists probe, the DDL ExecContext, and the final Commit. -/
structure ProvisionEnv where
  connectStep : Except GoError Unit
  beginStep : Except GoError Unit
  probeStep : Except GoError Bool
  ddlStep : Except GoError Unit
  commitStep : Except GoError Unit
deriving DecidableEq, Repr

/-- What a provisioning call returned and whether it issued the DDL
statement (CREATE DATABASE or DROP DATABASE IF EXISTS). -/
structure ProvisionOutcome where
  result : Except GoError Bool
  ddlIssued : Bool
deriving DecidableEq, Repr

/-- Error for an empty resolved URL (part_001 lines 256-258). -/
def errNoURL (dbName : String) : GoError :=
  .base ("no database URL found in config file. Expected \x22url\x22 in config section " ++ dbName)

/-- CreateDB (part_001 lines 252-309): resolve settings; reject an
empty URL; for the default alias derive the target name from the URL
path; connect administratively, begin a transaction, probe existence;
when present commit (result ignored) and return (false, nil); when
absent issue CREATE DATABASE on the connection then commit the probe
transaction, returning (true, nil); DDL and commit errors are wrapped
with the database name. -/
def CreateDB (s : settings) (dbName : String) (env : ProvisionEnv) : ProvisionOutcome :=
  let dbs := DBSettingsFor s dbName
  if dbs.URL = "" then { result := .error (errNoURL dbName), ddlIssued := false }
  else
    let nameStep : Except GoError String :=
      if dbName = DefaultDBAlias then
        match deriveDBName dbs.URL with
        | none => .error ErrInvalidPGURL
        | some n => .ok n
      else .ok dbName
    match nameStep with
    | .error e => { result := .error e, ddlIssued := false }
    | .ok name =>
      match env.connectStep with
      | .error e => { result := .error e, ddlIssued := false }
      | .ok _ =>
        match env.beginStep with
        | .error e => { result := .error e, ddlIssued := false }
        | .ok _ =>
          match env.probeStep with
          | .error e => { result := .error e, ddlIssued := false }
          | .ok true => { result := .ok false, ddlIssued := false }
          | .ok false =>
            match env.ddlStep with
            | .error e =>
              { result := .error (.wrap ("could not create database " ++ name ++ ": ") e)
                ddlIssued := true }
            | .ok _ =>
              match env.commitStep with
              | .error e =>
                { result := .error (.wrap ("could not create database " ++ name ++ ": ") e)
                  ddlIssued := true }
              | .ok _ => { result := .ok true, ddlIssued := true }

/-- DropDB (part_001 lines 314-352): connect administratively, begin a
transaction, probe existence; when absent return (false, nil) without
DDL; when present issue DROP DATABASE IF EXISTS then commit, returning
(true, nil). There is no empty-URL check and no name derivation. -/
def DropDB (s : settings) (dbName : String) (env : ProvisionEnv) : ProvisionOutcome :=
  let _dbs := DBSettingsFor s dbName
  match env.connectStep with
  | .error e => { result := .error e, ddlIssued := false }
  | .ok _ =>
    match env.beginStep with
    | .error e => { result := .error e, ddlIssued := false }
    | .ok _ =>
      match env.probeStep with
      | .error e => { result := .error e, ddlIssued := false }
      | .ok false => { result := .ok false, ddlIssued := false }
      | .ok true =>
        match env.ddlStep with
        | .error e =>
          { result := .error (.wrap ("could not drop database " ++ dbName ++ ": ") e)
            ddlIssued := true }
        | .ok _ =>
          match env.commitStep with
          | .error e =>
            { result := .error (.wrap ("could not drop database " ++ dbName ++ ": ") e)
              ddlIssued := true }
          | .ok _ => { result := .ok true, ddlIssued := true }

/-- Pool handle as seen by EnsureDB's caller: nil or an open pool. -/
inductive PoolHandle where
  | nil
  | pool
deriving DecidableEq, Repr

/-- Outcomes of the effectful steps of EnsureDB (part_001 lines
217-247): the SwitchDB URL rewrite for a non-default alias, the inner
CreateDB call, and the pool open. -/
structure EnsureEnv where
  switchStep : Except GoError Unit
  createStep : Except GoError Bool
  openStep : Except GoError Unit
deriving DecidableEq, Repr

/-- EnsureDB (part_001 lines 217-247): for a non-default alias, rewrite
the settings URL to the target database (SwitchDB), failing early with
created = false; call CreateDB, and on its error return a nil pool,
created = true and that error unchanged; open the pool, wrapping an
open failure and keeping the created flag; on success return the pool
and the created flag. -/
def EnsureDB (dbName : String) (env : EnsureEnv) : PoolHandle × Bool × Option GoError :=
  let sw : Except GoError Unit :=
    if dbName ≠ DefaultDBAlias then env.switchStep else .ok ()
  match sw with
  | .error e => (.nil, false, some e)
  | .ok _ =>
    match env.createStep with
    | .error e => (.nil, true, some e)
    | .ok created =>
      match env.openStep with
      | .error e =>
        (.nil, created, some (.wrap "could not connect to database server: " e))
      | .ok _ => (.pool, created, none)

/-! ## Repository lifecycle (part_002: New, Start, Stop, HealthCheck) -/

/-- Repository state: the db field is the pool handle, nil until a
successful Start (part_002 lines 225-231). -/
structure Repository where
  db : Option Unit
deriving DecidableEq, Repr

/-- New (part_002 lines 236-245): builds a Repository without opening a
pool — the db field is the Go zero value, nil. -/
def RepositoryNew : Repository := { db := none }

/-- Outcomes of the effectful steps of Start: settings validation and
the pool open (which itself includes the availability probe). -/
structure StartEnv where
  validateStep : Except GoError Unit
  openStep : Except GoError Unit
deriving DecidableEq, Repr

/-- Start (part_002 lines 258-276): validate, open; only after a
successful open is the handle assigned. A failure of either step
returns the error with the repository unchanged. -/
def RepositoryStart (r : Repository) (env : StartEnv) : Repository × Option GoError :=
  match env.validateStep with
  | .error e => (r, some e)
  | .ok _ =>
    match env.openStep with
    | .error e => (r, some e)
    | .ok _ => ({ r with db := some () }, none)

/-- Stop (part_002 lines 281-287): a nil handle is a no-op returning
nil; otherwise the pool Close result is returned (abstract input). -/
def RepositoryStop (r : Repository) (closeStep : Option GoError) : Option GoError :=
  match r.db with
  | none => none
  | some _ => closeStep

/-- HealthCheck (part_002 lines 290-299): a nil handle yields
ErrDBNotInitialized; otherwise the ping result under the configured
ping timeout is surfaced unchanged (abstract input). -/
def RepositoryHealthCheck (r : Repository) (pingStep : Option GoError) : Option GoError :=
  match r.db with
  | none => some ErrDBNotInitialized
  | some _ => pingStep

/-! ## Pool knob application (part_003: SetPool) -/

/-- Connection-pool knobs of a database/sql DB object that SetPool may
set. -/
structure SqlDB where
  maxIdleConns : Int
  maxOpenConns : Int
  connMaxLifetime : Duration
  connMaxIdleTime : Duration
deriving DecidableEq, Repr

/-- SetPool (part_003 lines 214-228): with a nil pool config nothing is
set; otherwise MaxIdleConns, MaxOpenConns and ConnMaxLifeTime are each
applied when strictly positive. No statement touches ConnMaxIdleTime. -/
def SetPool (r : databaseSettings) (db : SqlDB) : SqlDB :=
  match r.PGConfig with
  | none => db
  | some cfg =>
    let db1 := if cfg.MaxIdleConns > 0 then { db with maxIdleConns := cfg.MaxIdleConns } else db
    let db2 := if cfg.MaxOpenConns > 0 then { db1 with maxOpenConns := cfg.MaxOpenConns } else db1
    if cfg.ConnMaxLifeTime > 0 then { db2 with connMaxLifetime := cfg.ConnMaxLifeTime } else db2

/-! ## Option application with Go aliasing (options.go)

Go's `settings` struct holds a pointer (`PGConfig *poolSettings`) and a
map (`Databases map[string]databaseSettings`); `s := defaultSettings`
copies the struct shallowly, so the copy shares the pointed-to pool
cell and the map storage with the package-level variable. This heap
model makes that sharing explicit: pool cells and map cells live in a
heap and the settings structs hold indices into it. -/

/-- Pointer to a poolSettings heap cell. -/
abbrev PoolPtr := Nat

/-- Pointer to a Databases map heap cell. -/
abbrev MapPtr := Nat

/-- Go zero value of poolSettings. -/
def zeroPool : poolSettings :=
  { MaxIdleConns := 0, MaxOpenConns := 0, ConnMaxLifeTime := 0, ConnMaxIdleTime := 0
    PingTimeout := 0, Log := { Level := "" }, Trace := { Enabled := false }, Set := [] }

/-- Per-database settings with the pool override as a pointer. -/
structure databaseSettingsH where
  URL : String
  User : String
  Password : String
  PGConfig : Option PoolPtr
deriving DecidableEq, Repr

/-- Top-level settings with pointer-valued PGConfig and Databases. -/
structure settingsH where
  PGConfig : Option PoolPtr
  Databases : MapPtr
  app : String
deriving DecidableEq, Repr

/-- Heap of pool cells and Databases map cells. -/
structure Heap where
  pools : List poolSettings
  dbmaps : List (List (String × databaseSettingsH))
deriving DecidableEq, Repr

/-- Reads a pool cell. -/
def Heap.getPool (h : Heap) (p : PoolPtr) : poolSettings :=
  (h.pools.get? p).getD zeroPool

/-- Writes a pool cell in place. -/
def Heap.putPool (h : Heap) (p : PoolPtr) (v : poolSettings) : Heap :=
  { h with pools := h.pools.set p v }

/-- Allocates a fresh pool cell (Go: ps := &poolSettings\x7b\x7d). -/
def Heap.allocPool (h : Heap) (v : poolSettings) : Heap × PoolPtr :=
  ({ h with pools := h.pools ++ [v] }, h.pools.length)

/-- Reads a Databases map cell. -/
def Heap.getMap (h : Heap) (p : MapPtr) : List (String × databaseSettingsH) :=
  (h.dbmaps.get? p).getD []

/-- Writes a Databases map cell in place. -/
def Heap.putMap (h : Heap) (p : MapPtr) (v : List (String × databaseSettingsH)) : Heap :=
  { h with dbmaps := h.dbmaps.set p v }

/-- Go map assignment m[k] = v on an association list. -/
def mapPut (m : List (String × databaseSettingsH)) (k : String) (v : databaseSettingsH) :
    List (String × databaseSettingsH) :=
  match m with
  | [] => [(k, v)]
  | (k0, v0) :: rest => if k0 = k then (k, v) :: rest else (k0, v0) :: mapPut rest k v

/-- Go map assignment on the session-parameter Set map. -/
def setPut (m : List (String × String)) (k v : String) : List (String × String) :=
  match m with
  | [] => [(k, v)]
  | (k0, v0) :: rest => if k0 = k then (k, v) :: rest else (k0, v0) :: setPut rest k v

/-- Package state: the heap plus the package-level defaultSettings
variable. -/
structure PkgState where
  heap : Heap
  dflt : settingsH
deriving DecidableEq, Repr

/-- Initial heap: the one default pool cell and the one Databases map
cell of the initial defaultSettings. -/
def initHeap : Heap :=
  { pools := [initialDefaultPool]
    dbmaps := [[(DefaultDBAlias, { URL := DefaultURL, User := "", Password := "", PGConfig := none })]] }

/-- Initial package state: defaultSettings points at pool cell 0 and
map cell 0 (part_003 lines 43-69). -/
def initPkgState : PkgState :=
  { heap := initHeap, dflt := { PGConfig := some 0, Databases := 0, app := "" } }

/-- PoolOption constructors of options.go (lines 136-185). -/
inductive PoolOptionM where
  | withMaxIdleConns (n : Int)
  | withMaxOpenConns (n : Int)
  | withConnMaxIdleTime (d : Duration)
  | withConnMaxLifeTime (d : Duration)
  | withLogLevel (lvl : String)
  | withTracing (b : Bool)
  | withPingTimeout (d : Duration)
  | withSetClause (k v : String)
deriving DecidableEq, Repr

/-- Applies one PoolOption to the poolSettings value it points at. -/
def applyPoolOption (ps : poolSettings) : PoolOptionM → poolSettings
  | .withMaxIdleConns n => { ps with MaxIdleConns := n }
  | .withMaxOpenConns n => { ps with MaxOpenConns := n }
  | .withConnMaxIdleTime d => { ps with ConnMaxIdleTime := d }
  | .withConnMaxLifeTime d => { ps with ConnMaxLifeTime := d }
  | .withLogLevel lvl => { ps with Log := { Level := lvl } }
  | .withTracing b => { ps with Trace := { Enabled := b } }
  | .withPingTimeout d => { ps with PingTimeout := d }
  | .withSetClause k v => { ps with Set := setPut ps.Set k v }

/-- DBOption constructors of options.go (lines 107-134). -/
inductive DBOptionM where
  | withURL (u : String)
  | withUser (u : String)
  | withPassword (p : String)
  | withPoolSettings (opts : List PoolOptionM)
deriving DecidableEq, Repr

/-- Applies one DBOption; WithPoolSettings allocates a fresh pool cell
and folds its PoolOptions over it (options.go lines 125-134). -/
def applyDBOption (h : Heap) (o : databaseSettingsH) : DBOptionM → Heap × databaseSettingsH
  | .withURL u => (h, { o with URL := u })
  | .withUser u => (h, { o with User := u })
  | .withPassword p => (h, { o with Password := p })
  | .withPoolSettings opts =>
    let ps := opts.foldl applyPoolOption zeroPool
    let (h2, ptr) := h.allocPool ps
    (h2, { o with PGConfig := some ptr })

/-- Option constructors of options.go relevant to the claims. -/
inductive OptionM where
  | withName (a : String)
  | withDefaultPoolOptions (opts : List PoolOptionM)
  | withDatabaseSettings (aliasName : String) (opts : List DBOptionM)
deriving DecidableEq, Repr

/-- poolSettingsFromOptions (options.go lines 47-54): takes the
package-level defaultSettings.PGConfig POINTER and applies each
PoolOption through it, mutating the shared cell in place, then returns
that same pointer. The nil-pointer branch is unreachable from the
initial state (Go would fault applying an option through nil). -/
def poolSettingsFromOptionsH (st : PkgState) (opts : List PoolOptionM) :
    PkgState × Option PoolPtr :=
  match st.dflt.PGConfig with
  | some ptr =>
    let cell := opts.foldl applyPoolOption (st.heap.getPool ptr)
    ({ st with heap := st.heap.putPool ptr cell }, some ptr)
  | none => (st, none)

/-- databaseSettingsFromOptions (options.go lines 38-45): value-copies
the "default" entry of the package-level Databases map (zero value when
absent) and folds the DBOptions over the copy. -/
def databaseSettingsFromOptionsH (st : PkgState) (opts : List DBOptionM) :
    Heap × databaseSettingsH :=
  let m := st.heap.getMap st.dflt.Databases
  let base := (m.lookup DefaultDBAlias).getD { URL := "", User := "", Password := "", PGConfig := none }
  opts.foldl (fun acc op => applyDBOption acc.1 acc.2 op) (st.heap, base)

/-- Applies one Option to the local settings copy `o`:
WithDefaultPoolOptions stores the (shared) default pool pointer after
mutating its cell; WithDatabaseSettings assigns into the map cell that
`o.Databases` points at — the very cell of the package defaults. -/
def applyOption (st : PkgState) (o : settingsH) : OptionM → PkgState × settingsH
  | .withName a => (st, { o with app := a })
  | .withDefaultPoolOptions opts =>
    let r := poolSettingsFromOptionsH st opts
    (r.1, { o with PGConfig := r.2 })
  | .withDatabaseSettings aliasName opts =>
    let r := databaseSettingsFromOptionsH st opts
    let m2 := mapPut (r.1.getMap o.Databases) aliasName r.2
    ({ heap := r.1.putMap o.Databases m2, dflt := st.dflt }, o)

/-- settingsFromOptions (options.go lines 29-36): s := defaultSettings
copies the struct shallowly — the pool pointer and the map pointer are
shared with the package variable — then each Option is applied. -/
def settingsFromOptionsH (st : PkgState) (opts : List OptionM) : PkgState × settingsH :=
  opts.foldl (fun acc op => applyOption acc.1 acc.2 op) (st, st.dflt)

/-- The pool configuration the package-level defaults currently point
at. -/
def defaultPoolOf (st : PkgState) : Option poolSettings :=
  st.dflt.PGConfig.map st.heap.getPool

/-- The Databases map the package-level defaults currently point at. -/
def defaultDatabasesOf (st : PkgState) : List (String × databaseSettingsH) :=
  st.heap.getMap st.dflt.Databases

/-! ## Concrete fixtures used by counterexamples and witnesses -/

/-- Database settings with a half-second ping timeout. -/
def halfSecondCfg : databaseSettings :=
  { URL := "postgresql://localhost:5432/db", User := "", Password := ""
    PGConfig := some { initialDefaultPool with PingTimeout := 500000000 } }

/-- Settings whose "default" alias entry carries no pool override while
the global pool settings are set. -/
def fallbackFixture : settings :=
  { PGConfig := some initialDefaultPool
    Databases := [(DefaultDBAlias, { URL := "postgresql://localhost:5432/db", User := "", Password := "", PGConfig := none })]
    app := "" }

/-! ## Claims -/

/-- C1 counterexample: with the initial package defaults, a configured
ping timeout of half a second makes waitPing pace against the package
default of ten seconds — not against one second as the claim states. -/
theorem pacing_of_subsecond_ping_timeout_is_ten_seconds :
    effectivePacing initialDefaultPingTimeout halfSecondCfg = 10 * second ∧
      (10 * second : Duration) ≠ second := by
  decide

/-- C1 (amended): a configured ping timeout that is positive and
strictly below one second is coerced by maxWait to the package-level
default ping timeout (10 seconds initially), and waitPing's one-second
floor then leaves that default unchanged whenever it is at least one
second — so the retry-loop pacing equals the package default, not one
second. -/
theorem subsecond_ping_timeout_coerced_to_package_default
    (r : databaseSettings) (p : poolSettings) (dfltPing : Duration)
    (hp : r.PGConfig = some p)
    (_hpos : 0 < p.PingTimeout) (hlt : p.PingTimeout < second)
    (hdflt : second ≤ dfltPing) :
    effectivePacing dfltPing r = dfltPing := by
  simp only [effectivePacing, maxWait, pingDeadline, hp, if_pos hlt]
  rw [if_neg (not_lt.mpr hdflt)]

/-- C1 witness: the amended coercion evaluated on the half-second
fixture under the initial package defaults. -/
theorem subsecond_ping_timeout_coerced_to_package_default_witness :
    effectivePacing initialDefaultPingTimeout halfSecondCfg = initialDefaultPingTimeout :=
  subsecond_ping_timeout_coerced_to_package_default halfSecondCfg
    { initialDefaultPool with PingTimeout := 500000000 }
    initialDefaultPingTimeout rfl (by decide) (by decide) (by decide)

/-- C2 counterexample: resolving an alias absent from the map falls
back to the "default" entry as-is; even though that entry has a nil
pool override and the global pool settings are non-nil, nothing is
inherited on this path. -/
theorem fallback_resolution_does_not_inherit_global_pool :
    (DBSettingsFor fallbackFixture "missing").PGConfig = none ∧
      fallbackFixture.PGConfig = some initialDefaultPool := by
  constructor
  · rfl
  · rfl

/-- C2 (amended): an alias absent from the Databases map resolves to
the "default" alias's settings returned as-is, with no pool-settings
inheritance on that path (and to empty settings when "default" is also
absent); the global pool settings are inherited only when the alias is
found directly and its pool override is nil; a non-nil per-alias pool
override is returned unchanged, fully replacing the global one. -/
theorem DBSettingsFor_layering (s : settings) (a : String) :
    (∀ d, s.Databases.lookup a = none → s.Databases.lookup DefaultDBAlias = some d →
      DBSettingsFor s a = d)
    ∧ (s.Databases.lookup a = none → s.Databases.lookup DefaultDBAlias = none →
      DBSettingsFor s a = { URL := "", User := "", Password := "", PGConfig := none })
    ∧ (∀ d, s.Databases.lookup a = some d → d.PGConfig = none →
      DBSettingsFor s a = { d with PGConfig := s.PGConfig })
    ∧ (∀ d p, s.Databases.lookup a = some d → d.PGConfig = some p →
      DBSettingsFor s a = d) := by
  refine ⟨?_, ?_, ?_, ?_⟩
  · intro d h1 h2
    simp [DBSettingsFor, h1, h2]
  · intro h1 h2
    simp [DBSettingsFor, h1, h2]
  · intro d h1 h2
    simp [DBSettingsFor, h1, h2]
  · intro d p h1 h2
    simp [DBSettingsFor, h1, h2]

/-- C2 witness: the layering theorem evaluated on the fallback fixture
for an absent alias. -/
theorem DBSettingsFor_layering_witness :
    DBSettingsFor fallbackFixture "missing" =
      { URL := "postgresql://localhost:5432/db", User := "", Password := "", PGConfig := none } :=
  (DBSettingsFor_layering fallbackFixture "missing").1
    { URL := "postgresql://localhost:5432/db", User := "", Password := "", PGConfig := none }
    rfl rfl

/-- C3: evaluating settingsFromOptions at the failing input shows that
building per-call settings mutates the package-level defaults, because
the per-call copy shares the default pool cell and the Databases map
cell with the package variable: WithDefaultPoolOptions rewrites the
default pool's log level in place, and WithDatabaseSettings inserts the
new alias into the shared default map. -/
theorem settingsFromOptions_mutates_package_defaults :
    (defaultPoolOf (settingsFromOptionsH initPkgState
        [.withDefaultPoolOptions [.withLogLevel "debug"]]).1).map (fun p => p.Log.Level)
      = some "debug"
    ∧ (defaultPoolOf initPkgState).map (fun p => p.Log.Level) = some "warn"
    ∧ ((defaultDatabasesOf (settingsFromOptionsH initPkgState
        [.withDatabaseSettings "other" [.withURL "postgresql://h/x"]]).1).lookup "other"
      = some { URL := "postgresql://h/x", User := "", Password := "", PGConfig := none })
    ∧ (defaultDatabasesOf initPkgState).lookup "other" = none := by
  refine ⟨rfl, rfl, rfl, rfl⟩

/-- Effect outcomes in which every administrative step succeeds and the
existence probe reports the database absent. -/
def stepsOkAbsent : ProvisionEnv :=
  { connectStep := .ok (), beginStep := .ok (), probeStep := .ok false
    ddlStep := .ok (), commitStep := .ok () }

/-- Effect outcomes in which every administrative step succeeds and the
existence probe reports the database present. -/
def stepsOkPresent : ProvisionEnv :=
  { stepsOkAbsent with probeStep := .ok true }

/-- C4: once the transaction holding the existence probe is reached, a
probe reporting the database present makes CreateDB return (false, nil)
with no CREATE DATABASE issued, and a probe reporting it absent
followed by successful DDL and commit makes it return (true, nil) —
hence two successive calls with identical settings, the second
observing the database created by the first, yield (true, nil) then
(false, nil). -/
theorem CreateDB_probe_behavior (s : settings) (dbName : String) (env : ProvisionEnv)
    (hurl : (DBSettingsFor s dbName).URL ≠ "")
    (hname : dbName = DefaultDBAlias → (deriveDBName (DBSettingsFor s dbName).URL).isSome)
    (hconn : env.connectStep = .ok ())
    (hbegin : env.beginStep = .ok ()) :
    (env.probeStep = .ok true →
      CreateDB s dbName env = { result := .ok false, ddlIssued := false })
    ∧ (env.probeStep = .ok false → env.ddlStep = .ok () → env.commitStep = .ok () →
      CreateDB s dbName env = { result := .ok true, ddlIssued := true }) := by
  constructor
  · intro hprobe
    by_cases hd : dbName = DefaultDBAlias
    · subst hd
      obtain ⟨n, hn⟩ := Option.isSome_iff_exists.mp (hname rfl)
      simp [CreateDB, hurl, hn, hconn, hbegin, hprobe]
    · simp [CreateDB, hurl, hd, hconn, hbegin, hprobe]
  · intro hprobe hddl hcommit
    by_cases hd : dbName = DefaultDBAlias
    · subst hd
      obtain ⟨n, hn⟩ := Option.isSome_iff_exists.mp (hname rfl)
      simp [CreateDB, hurl, hn, hconn, hbegin, hprobe, hddl, hcommit]
    · simp [CreateDB, hurl, hd, hconn, hbegin, hprobe, hddl, hcommit]

/-- C4 witness: the first call creates (true, nil); the second call,
whose probe now sees the database, returns (false, nil) without DDL. -/
theorem CreateDB_probe_behavior_witness :
    CreateDB fallbackFixture "newdb" stepsOkAbsent = { result := .ok true, ddlIssued := true }
    ∧ CreateDB fallbackFixture "newdb" stepsOkPresent = { result := .ok false, ddlIssued := false } :=
  ⟨(CreateDB_probe_behavior fallbackFixture "newdb" stepsOkAbsent
      (by decide) (by decide) rfl rfl).2 rfl rfl rfl,
   (CreateDB_probe_behavior fallbackFixture "newdb" stepsOkPresent
      (by decide) (by decide) rfl rfl).1 rfl⟩

/-- C5: once DropDB's existence probe is reached, a probe reporting the
database absent yields (false, nil) with no DDL executed, and a probe
reporting it present followed by successful DROP DATABASE IF EXISTS and
commit yields (true, nil). -/
theorem DropDB_probe_behavior (s : settings) (dbName : String) (env : ProvisionEnv)
    (hconn : env.connectStep = .ok ())
    (hbegin : env.beginStep = .ok ()) :
    (env.probeStep = .ok false →
      DropDB s dbName env = { result := .ok false, ddlIssued := false })
    ∧ (env.probeStep = .ok true → env.ddlStep = .ok () → env.commitStep = .ok () →
      DropDB s dbName env = { result := .ok true, ddlIssued := true }) := by
  constructor
  · intro hprobe
    simp [DropDB, hconn, hbegin, hprobe]
  · intro hprobe hddl hcommit
    simp [DropDB, hconn, hbegin, hprobe, hddl, hcommit]

/-- C5 witness: dropping an absent database is a (false, nil) no-op;
dropping a present one executes the DDL and returns (true, nil). -/
theorem DropDB_probe_behavior_witness :
    DropDB fallbackFixture "newdb" stepsOkAbsent = { result := .ok false, ddlIssued := false }
    ∧ DropDB fallbackFixture "newdb" stepsOkPresent = { result := .ok true, ddlIssued := true } :=
  ⟨(DropDB_probe_behavior fallbackFixture "newdb" stepsOkAbsent rfl rfl).1 rfl,
   (DropDB_probe_behavior fallbackFixture "newdb" stepsOkPresent rfl rfl).2 rfl rfl rfl⟩

/-- Probe stream that fails transiently three times, then succeeds. -/
def transientThenUp : Nat → PingOutcome := fun i =>
  if i < 3 then .failure (.base "dial tcp: connection refused") else .success

/-- Probe stream whose first probe is an authentication failure and
which would succeed on any retry. -/
def authFailThenUp : Nat → PingOutcome := fun i =>
  if i = 0 then .failure (.base "FATAL: password authentication failed (SQLSTATE 28P01)")
  else .success

/-- Probe stream whose first probe is an invalid-catalog failure and
which would succeed on any retry. -/
def catalogFailThenUp : Nat → PingOutcome := fun i =>
  if i = 0 then .failure (.base "FATAL: database q does not exist (SQLSTATE 3D000)")
  else .success

/-- C6: the fatal classification holds — an SQLSTATE class 28 error is
returned at once joined with the ErrPGAuth sentinel and a class 3D
error is returned at once as-is, both without any retry (on streams
whose retries would have succeeded) — but the final-probe clause fails:
when the deadline fires and the last probe succeeds, waitPing passes a
nil error to errShouldReturn, which dereferences it, so the code
panics instead of returning the probe's successful result. -/
theorem waitPing_fatal_classification_and_final_probe_nil_deref :
    waitPing authFailThenUp 5 =
      .fail (.jn ErrPGAuth (.base "FATAL: password authentication failed (SQLSTATE 28P01)"))
    ∧ waitPing catalogFailThenUp 5 =
      .fail (.base "FATAL: database q does not exist (SQLSTATE 3D000)")
    ∧ waitPing transientThenUp 2 = .panicNilDeref := by
  refine ⟨by decide, by decide, by decide⟩

/-- EnsureDB effect outcomes in which CreateDB fails. -/
def createFailingEnv : EnsureEnv :=
  { switchStep := .ok (), createStep := .error (.base "could not create database"), openStep := .ok () }

/-- C7: whenever the inner CreateDB call returns an error, EnsureDB
returns a nil pool handle, created = true, and that error unchanged. -/
theorem EnsureDB_nil_pool_and_true_on_create_failure (dbName : String) (env : EnsureEnv)
    (e : GoError)
    (hsw : dbName ≠ DefaultDBAlias → env.switchStep = .ok ())
    (hcreate : env.createStep = .error e) :
    EnsureDB dbName env = (.nil, true, some e) := by
  by_cases hd : dbName = DefaultDBAlias
  · simp [EnsureDB, hd, hcreate]
  · simp [EnsureDB, hd, hsw hd, hcreate]

/-- C7 witness: the failure path evaluated on a concrete environment. -/
theorem EnsureDB_nil_pool_and_true_on_create_failure_witness :
    EnsureDB "somedb" createFailingEnv = (.nil, true, some (.base "could not create database")) :=
  EnsureDB_nil_pool_and_true_on_create_failure "somedb" createFailingEnv
    (.base "could not create database") (fun _ => rfl) rfl

/-- Start environment whose pool open fails. -/
def failingStartEnv : StartEnv :=
  { validateStep := .ok (), openStep := .error (.base "dial tcp: connection refused") }

/-- C8: a freshly constructed Repository has a nil pool handle; with a
nil handle Stop is a no-op returning nil and HealthCheck returns
ErrDBNotInitialized; and any failing Start (validation or open/probe
failure) leaves the handle nil. -/
theorem Repository_nil_handle_invariant (r : Repository)
    (closeStep pingStep : Option GoError) (env : StartEnv)
    (h : r.db = none) :
    RepositoryNew.db = none
    ∧ RepositoryStop r closeStep = none
    ∧ RepositoryHealthCheck r pingStep = some ErrDBNotInitialized
    ∧ ((RepositoryStart r env).2.isSome → (RepositoryStart r env).1.db = none) := by
  refine ⟨rfl, ?_, ?_, ?_⟩
  · simp [RepositoryStop, h]
  · simp [RepositoryHealthCheck, h]
  · intro hfail
    rcases hv : env.validateStep with e | u
    · simp [RepositoryStart, hv, h]
    · rcases ho : env.openStep with e2 | u2
      · simp [RepositoryStart, hv, ho, h]
      · exfalso
        simp [RepositoryStart, hv, ho] at hfail

/-- C8 witness: the invariant evaluated on a fresh Repository with a
failing open. -/
theorem Repository_nil_handle_invariant_witness :
    RepositoryStop RepositoryNew none = none
    ∧ RepositoryHealthCheck RepositoryNew none = some ErrDBNotInitialized
    ∧ (RepositoryStart RepositoryNew failingStartEnv).1.db = none :=
  ⟨(Repository_nil_handle_invariant RepositoryNew none none failingStartEnv rfl).2.1,
   (Repository_nil_handle_invariant RepositoryNew none none failingStartEnv rfl).2.2.1,
   (Repository_nil_handle_invariant RepositoryNew none none failingStartEnv rfl).2.2.2 (by decide)⟩

/-- C9: for every DSN the administrative connector can parse, the URL
it connects with has its path element pointed at the bootstrap database
"postgres" — never at any other target database. -/
theorem connectNoDB_targets_bootstrap_database (dsn target : String) (u : GoURL)
    (h : connectNoDBURL dsn = some u) :
    u.path = "postgres" ∧ (target ≠ "postgres" → u.path ≠ target) := by
  rcases hp : parseURL dsn with _ | v
  · rw [connectNoDBURL, hp] at h
    cases h
  · rw [connectNoDBURL, hp] at h
    simp only [Option.map_some'] at h
    have hu := Option.some.inj h
    subst hu
    exact ⟨rfl, fun ht hc => ht hc.symm⟩

/-- Test DSN pointing at the target database testdb. -/
def adminDSN : String := "postgresql://postgres@localhost:5432/testdb?sslmode=disable"

/-- Parsed administrative URL for adminDSN after connectNoDB rewrites
the path. -/
def adminURL : GoURL :=
  { scheme := "postgresql", userinfo := "postgres", host := "localhost:5432"
    path := "postgres", rawQuery := "sslmode=disable" }

/-- C9 witness: the administrative URL built from a DSN naming testdb
points at postgres, not at testdb. -/
theorem connectNoDB_targets_bootstrap_database_witness :
    connectNoDBURL adminDSN = some adminURL
    ∧ adminURL.path = "postgres"
    ∧ adminURL.path ≠ "testdb" :=
  ⟨rfl,
   (connectNoDB_targets_bootstrap_database adminDSN "testdb" adminURL rfl).1,
   (connectNoDB_targets_bootstrap_database adminDSN "testdb" adminURL rfl).2 (by decide)⟩

/-- Database settings whose only pool knob is a positive
connMaxIdleTime. -/
def idleOnlyCfg : databaseSettings :=
  { URL := "postgresql://localhost:5432/db", User := "", Password := ""
    PGConfig := some { zeroPool with ConnMaxIdleTime := 5 * second } }

/-- Database settings with all four pool knobs positive. -/
def fullKnobCfg : databaseSettings :=
  { URL := "postgresql://localhost:5432/db", User := "", Password := ""
    PGConfig := some { zeroPool with
      MaxIdleConns := 7, MaxOpenConns := 9
      ConnMaxLifeTime := 5 * second, ConnMaxIdleTime := 3 * second } }

/-- Pool knobs of a freshly opened database/sql DB. -/
def freshSqlDB : SqlDB :=
  { maxIdleConns := 2, maxOpenConns := 0, connMaxLifetime := 0, connMaxIdleTime := 0 }

/-- C10 counterexample: with a positive configured connMaxIdleTime of
five seconds, SetPool leaves the pool's idle-time limit at its prior
value — the knob is never applied. -/
theorem SetPool_does_not_apply_connMaxIdleTime :
    (SetPool idleOnlyCfg freshSqlDB).connMaxIdleTime = 0 ∧ (0 : Duration) ≠ 5 * second := by
  decide

/-- C10 (amended): SetPool applies maxIdleConns, maxOpenConns and
connMaxLifetime when each is strictly positive, but never touches the
pool's connMaxIdleTime, whatever the configured value. -/
theorem SetPool_applies_positive_knobs_not_idle_time
    (r : databaseSettings) (cfg : poolSettings) (db : SqlDB)
    (h : r.PGConfig = some cfg) :
    (SetPool r db).connMaxIdleTime = db.connMaxIdleTime
    ∧ (0 < cfg.MaxIdleConns → (SetPool r db).maxIdleConns = cfg.MaxIdleConns)
    ∧ (0 < cfg.MaxOpenConns → (SetPool r db).maxOpenConns = cfg.MaxOpenConns)
    ∧ (0 < cfg.ConnMaxLifeTime → (SetPool r db).connMaxLifetime = cfg.ConnMaxLifeTime) := by
  refine ⟨?_, fun h1 => ?_, fun h2 => ?_, fun h3 => ?_⟩ <;>
    simp only [SetPool, h] <;> split_ifs <;> simp_all

/-- C10 witness: the amended statement evaluated on a settings value
with all knobs positive — three knobs applied, idle time untouched. -/
theorem SetPool_applies_positive_knobs_not_idle_time_witness :
    (SetPool fullKnobCfg freshSqlDB).connMaxIdleTime = 0
    ∧ (SetPool fullKnobCfg freshSqlDB).maxIdleConns = 7
    ∧ (SetPool fullKnobCfg freshSqlDB).maxOpenConns = 9
    ∧ (SetPool fullKnobCfg freshSqlDB).connMaxLifetime = 5 * second :=
  ⟨(SetPool_applies_positive_knobs_not_idle_time fullKnobCfg _ freshSqlDB rfl).1,
   (SetPool_applies_positive_knobs_not_idle_time fullKnobCfg _ freshSqlDB rfl).2.1 (by decide),
   (SetPool_applies_positive_knobs_not_idle_time fullKnobCfg _ freshSqlDB rfl).2.2.1 (by decide),
   (SetPool_applies_positive_knobs_not_idle_time fullKnobCfg _ freshSqlDB rfl).2.2.2 (by decide)⟩

end Pgrepo
